import Mathlib

/-!
# Verification of the SkClipStack core

A shallow embedding of `src/ui/third_party/skia/include/core/SkClipStack.h`:
the clip-stack data model (rects, paths, clip elements, the stack) and its
operations, with theorems checking the specification's statements about them.

Scalar coordinates are modelled as integers. The methods defined inline in the
header are translated from that source directly; methods whose bodies live in
the (absent) `SkClipStack.cpp` are modelled from the specification and say so
in their doc comments.
-/

/-- Device-space rectangle (the external `SkRect` capability); coordinates are
modelled as integers. -/
structure SkRect where
  fLeft : Int
  fTop : Int
  fRight : Int
  fBottom : Int
deriving DecidableEq, Repr

/-- `SkRect::isEmpty`: empty when the left edge is not strictly left of the
right edge, or the top not strictly above the bottom. -/
def SkRect.isEmpty (r : SkRect) : Bool :=
  decide (r.fRight ≤ r.fLeft) || decide (r.fBottom ≤ r.fTop)

/-- The rect `SkRect::setEmpty` produces: all four coordinates zero. -/
def SkRect.empty : SkRect := ⟨0, 0, 0, 0⟩

/-- `SkRect::contains(const SkRect&)`: both rects non-empty and the receiver's
edges enclose the argument's. -/
def SkRect.contains (a b : SkRect) : Bool :=
  !b.isEmpty && !a.isEmpty &&
    decide (a.fLeft ≤ b.fLeft) && decide (a.fTop ≤ b.fTop) &&
    decide (b.fRight ≤ a.fRight) && decide (b.fBottom ≤ a.fBottom)

/-- `SkRect::intersects`-style test: both rects non-empty and strictly
overlapping, the success condition of `SkRect::intersect`. -/
def SkRect.intersects (a b : SkRect) : Bool :=
  !a.isEmpty && !b.isEmpty &&
    decide (a.fLeft < b.fRight) && decide (b.fLeft < a.fRight) &&
    decide (a.fTop < b.fBottom) && decide (b.fTop < a.fBottom)

/-- The clamped intersection rectangle of two rects. -/
def SkRect.isect (a b : SkRect) : SkRect :=
  ⟨max a.fLeft b.fLeft, max a.fTop b.fTop, min a.fRight b.fRight, min a.fBottom b.fBottom⟩

/-- `SkRect::intersect(const SkRect&)`: on success the receiver becomes the
intersection; on failure (`none`) the receiver is left unchanged. -/
def SkRect.intersect (a b : SkRect) : Option SkRect :=
  if a.intersects b then some (a.isect b) else none

/-- `SkRect::offset`: translate by `(dx, dy)`. -/
def SkRect.offset (r : SkRect) (dx dy : Int) : SkRect :=
  ⟨r.fLeft + dx, r.fTop + dy, r.fRight + dx, r.fBottom + dy⟩

/-- The bounding union of two rects (the rect-join used by the bound algebra). -/
def SkRect.join (a b : SkRect) : SkRect :=
  ⟨min a.fLeft b.fLeft, min a.fTop b.fTop, max a.fRight b.fRight, max a.fBottom b.fBottom⟩

/-- The set of device pixels a rect covers: the half-open box
`[fLeft, fRight) × [fTop, fBottom)`. -/
def SkRect.memPt (r : SkRect) (x y : Int) : Prop :=
  r.fLeft ≤ x ∧ x < r.fRight ∧ r.fTop ≤ y ∧ y < r.fBottom

instance (r : SkRect) (x y : Int) : Decidable (r.memPt x y) := by
  unfold SkRect.memPt
  infer_instance

/-- Integer device-space rectangle (the external `SkIRect` capability). -/
structure SkIRect where
  fLeft : Int
  fTop : Int
  fRight : Int
  fBottom : Int
deriving DecidableEq, Repr

/-- `SkRect::set(const SkIRect&)`: the scalar rect with the same coordinates
(integer-to-scalar conversion is value preserving on these coordinates). -/
def SkRect.setFrom (ir : SkIRect) : SkRect :=
  ⟨ir.fLeft, ir.fTop, ir.fRight, ir.fBottom⟩

/-- The opaque geometry payload of a path: the bounds it reports and its
answers to `conservativelyContainsRect` queries. The spec treats path geometry
as an external capability (containment tests and bounds computation are
"consumed as opaque capabilities of a Path type"), so the capability's
behaviour is data of the model rather than something computed here. -/
structure SkPathGeom where
  bounds : SkRect
  ccrTable : List (SkRect × Bool)
deriving DecidableEq, Repr

/-- `SkPath`: opaque geometry plus the fill sense. `SkPath::operator==`
compares all of a path's data, the fill type included, which structural
equality of this structure reflects. -/
structure SkPath where
  geom : SkPathGeom
  fInverseFill : Bool
deriving DecidableEq, Repr

/-- `SkPath::getBounds`: the bounds of the point data, independent of the fill
sense. -/
def SkPath.getBounds (p : SkPath) : SkRect := p.geom.bounds

/-- `SkPath::isInverseFillType`. -/
def SkPath.isInverseFillType (p : SkPath) : Bool := p.fInverseFill

/-- `SkPath::conservativelyContainsRect`, an opaque geometric query. The source
documents (SkClipStack.h lines 133-136) that the shape's inverse-fill sense is
not considered, so the answer is read from the geometry payload only. -/
def SkPath.conservativelyContainsRect (p : SkPath) (r : SkRect) : Bool :=
  ((p.geom.ccrTable.find? fun q => decide (q.1 = r)).map Prod.snd).getD false

/-- The path `SkPath::reset()` leaves behind: default empty geometry, normal
fill. -/
def SkPath.resetPath : SkPath := ⟨⟨SkRect.empty, []⟩, false⟩

/-- The same path with only its fill sense replaced: used to state that a query
never consults the shape's inverse-fill sense. -/
def SkPath.withFill (p : SkPath) (b : Bool) : SkPath := { p with fInverseFill := b }

/-- `SkRegion::Op`, the set operators combining a clip element with the
accumulated clip. -/
inductive SkRegionOp where
  | kDifference_Op
  | kIntersect_Op
  | kUnion_Op
  | kXOR_Op
  | kReverseDifference_Op
  | kReplace_Op
deriving DecidableEq, Repr

open SkRegionOp

/-- `SkClipStack::BoundsType` (SkClipStack.h lines 26-35). -/
inductive BoundsType where
  | kNormal_BoundsType
  | kInsideOut_BoundsType
deriving DecidableEq, Repr

open BoundsType

/-- `SkClipStack::Element::Type` (SkClipStack.h lines 39-46). -/
inductive ElementType where
  | kEmpty_Type
  | kRect_Type
  | kPath_Type
deriving DecidableEq, Repr

open ElementType

/-- The three reserved generation ids (SkClipStack.h lines 333-339). -/
def kInvalidGenID : Int := 0

/-- Reserved generation id: no pixels writeable (SkClipStack.h line 338). -/
def kEmptyGenID : Int := 1

/-- Reserved generation id: all pixels writeable (SkClipStack.h line 339). -/
def kWideOpenGenID : Int := 2

/-- `SkClipStack::Element` (SkClipStack.h lines 37-257): one clip primitive
with its incrementally derived bound information. -/
structure Element where
  fPath : SkPath
  fRect : SkRect
  fSaveCount : Int
  fOp : SkRegionOp
  fType : ElementType
  fDoAA : Bool
  fFiniteBoundType : BoundsType
  fFiniteBound : SkRect
  fIsIntersectionOfRects : Bool
  fGenID : Int
deriving DecidableEq, Repr

/-- `Element::initCommon` (SkClipStack.h lines 200-210). -/
def Element.initCommon (e : Element) (saveCount : Int) (op : SkRegionOp) (doAA : Bool) :
    Element :=
  { e with
    fSaveCount := saveCount
    fOp := op
    fDoAA := doAA
    fFiniteBoundType := kInsideOut_BoundsType
    fFiniteBound := SkRect.empty
    fIsIntersectionOfRects := false
    fGenID := kInvalidGenID }

/-- `Element::setEmpty` (SkClipStack.h lines 224-232). -/
def Element.setEmpty (e : Element) : Element :=
  { e with
    fType := kEmpty_Type
    fFiniteBound := SkRect.empty
    fFiniteBoundType := kNormal_BoundsType
    fIsIntersectionOfRects := false
    fRect := SkRect.empty
    fPath := SkPath.resetPath
    fGenID := kEmptyGenID }

/-- `Element::initRect` (SkClipStack.h lines 212-216). -/
def Element.initRect (e : Element) (saveCount : Int) (rect : SkRect) (op : SkRegionOp)
    (doAA : Bool) : Element :=
  Element.initCommon { e with fRect := rect, fType := kRect_Type } saveCount op doAA

/-- `Element::initPath` (SkClipStack.h lines 218-222). -/
def Element.initPath (e : Element) (saveCount : Int) (path : SkPath) (op : SkRegionOp)
    (doAA : Bool) : Element :=
  Element.initCommon { e with fPath := path, fType := kPath_Type } saveCount op doAA

/-- The element before a constructor body runs: the class-type member (the
path) is default-constructed, the remaining members carry placeholder values
that each constructor then overwrites exactly as the source does. -/
def Element.uninit : Element :=
  ⟨SkPath.resetPath, SkRect.empty, 0, kReplace_Op, kEmpty_Type, false,
   kNormal_BoundsType, SkRect.empty, false, 0⟩

/-- `Element::Element()` (SkClipStack.h lines 48-51): `initCommon(0, kReplace_Op,
false)` then `setEmpty()`. -/
def Element.mkDefault : Element :=
  (Element.initCommon Element.uninit 0 kReplace_Op false).setEmpty

/-- `Element::Element(int saveCount)` (SkClipStack.h lines 187-190). -/
def Element.mkSave (saveCount : Int) : Element :=
  (Element.initCommon Element.uninit saveCount kReplace_Op false).setEmpty

/-- `Element::Element(int, const SkRect&, SkRegion::Op, bool)` (SkClipStack.h
lines 53-55 and 192-194). -/
def Element.mkRect (saveCount : Int) (rect : SkRect) (op : SkRegionOp) (doAA : Bool) :
    Element :=
  Element.initRect Element.uninit saveCount rect op doAA

/-- `Element::Element(int, const SkPath&, SkRegion::Op, bool)` (SkClipStack.h
lines 57-59 and 196-198). -/
def Element.mkPath (saveCount : Int) (path : SkPath) (op : SkRegionOp) (doAA : Bool) :
    Element :=
  Element.initPath Element.uninit saveCount path op doAA

/-- `Element::operator==` (SkClipStack.h lines 61-82): the operator, kind,
anti-alias flag and save count are compared first; only then is the payload of
the element's kind compared, with nothing further compared for `kEmpty_Type`. -/
def Element.beq (a b : Element) : Bool :=
  if a.fOp = b.fOp ∧ a.fType = b.fType ∧ a.fDoAA = b.fDoAA ∧ a.fSaveCount = b.fSaveCount then
    match a.fType with
    | kPath_Type => decide (a.fPath = b.fPath)
    | kRect_Type => decide (a.fRect = b.fRect)
    | kEmpty_Type => true
  else false

/-- `Element::setOp` (SkClipStack.h line 105). -/
def Element.setOp (e : Element) (op : SkRegionOp) : Element := { e with fOp := op }

/-- `Element::getBounds` (SkClipStack.h lines 118-131): the rect, the path's
bounds, or the static zero rect for an empty element. -/
def Element.getBounds (e : Element) : SkRect :=
  match e.fType with
  | kRect_Type => e.fRect
  | kPath_Type => e.fPath.getBounds
  | kEmpty_Type => SkRect.empty

/-- `Element::contains` (SkClipStack.h lines 137-149). -/
def Element.contains (e : Element) (rect : SkRect) : Bool :=
  match e.fType with
  | kRect_Type => e.fRect.contains rect
  | kPath_Type => e.fPath.conservativelyContainsRect rect
  | kEmpty_Type => false

/-- `Element::isInverseFilled` (SkClipStack.h lines 154-156). -/
def Element.isInverseFilled (e : Element) : Bool :=
  decide (e.fType = kPath_Type) && e.fPath.isInverseFillType

/-- The same element with only its path's fill sense replaced: used to state
that a query never consults the shape's inverse-fill sense. -/
def Element.withFill (e : Element) (b : Bool) : Element :=
  { e with fPath := e.fPath.withFill b }

/-- `SkClipStack` (SkClipStack.h lines 18-24 and 432-441): the element deque,
stored bottom to top, and the save-level counter. The purge-callback registry
is modelled observationally: operations that discard elements return the list
of generation ids reported to the registry. -/
structure SkClipStack where
  fDeque : List Element
  fSaveCount : Int
deriving DecidableEq, Repr

/-- Modelled from the spec: `SkClipStack::SkClipStack()` (declared SkClipStack.h
line 259, body not in the repository) — default construction yields the
"wide open" stack: no elements, save count zero. -/
def SkClipStack.initial : SkClipStack := ⟨[], 0⟩

/-- `SkClipStack::getSaveCount` (SkClipStack.h line 271). -/
def SkClipStack.getSaveCount (s : SkClipStack) : Int := s.fSaveCount

/-- Modelled from the spec: `SkClipStack::save` (declared SkClipStack.h line
272, body not in the repository) — increments the save count and pushes no
element. -/
def SkClipStack.save (s : SkClipStack) : SkClipStack :=
  { s with fSaveCount := s.fSaveCount + 1 }

/-- Modelled from the spec: `SkClipStack::restore` (declared SkClipStack.h line
273, body not in the repository) — decrements the save count, then pops from
the top every element whose save level exceeds the new count, reporting each
popped element's generation id to the purge registry (the returned list, in
pop order). -/
def SkClipStack.restore (s : SkClipStack) : SkClipStack × List Int :=
  let newCount := s.fSaveCount - 1
  let rev := s.fDeque.reverse
  let popped := rev.takeWhile fun e => decide (newCount < e.fSaveCount)
  let kept := rev.dropWhile fun e => decide (newCount < e.fSaveCount)
  (⟨kept.reverse, newCount⟩, popped.map Element.fGenID)

/-- Modelled from the spec: `SkClipStack::getBounds` (declared SkClipStack.h
lines 284-286, body not in the repository) — the topmost element's stored
incremental bound, bound type and rect-intersection flag, or the wide-open
sentinel values (empty inside-out bound, no rect intersection) when the stack
holds no elements. -/
def SkClipStack.getBounds (s : SkClipStack) : SkRect × BoundsType × Bool :=
  match s.fDeque.getLast? with
  | none => (SkRect.empty, kInsideOut_BoundsType, false)
  | some top => (top.fFiniteBound, top.fFiniteBoundType, top.fIsIntersectionOfRects)

/-- Modelled from the spec: `SkClipStack::quickContains` (declared SkClipStack.h
lines 295-300, body not in the repository) — true only if the current bound is
normal, the clip is an intersection of rects, and the rect is contained in that
bound. -/
def SkClipStack.quickContains (s : SkClipStack) (devRect : SkRect) : Bool :=
  decide (s.getBounds.2.1 = kNormal_BoundsType) && s.getBounds.2.2 &&
    (s.getBounds.1).contains devRect

/-- Modelled from the spec: `SkClipStack::intersectRectWithClip` (declared
SkClipStack.h lines 288-293, body not in the repository) — an inside-out bound
leaves the rect unmodified and succeeds; a normal bound that already contains
the rect leaves it unmodified and succeeds; otherwise the rect is intersected
with the bound, failing (rect unmodified) when they do not intersect, in
particular when the bound is empty. -/
def SkClipStack.intersectRectWithClip (s : SkClipStack) (devRect : SkRect) :
    Bool × SkRect :=
  if s.getBounds.2.1 = kInsideOut_BoundsType then (true, devRect)
  else if (s.getBounds.1).contains devRect then (true, devRect)
  else
    match devRect.intersect s.getBounds.1 with
    | some r => (true, r)
    | none => (false, devRect)

/-- Modelled from the spec: `SkClipStack::isWideOpen` (declared SkClipStack.h
lines 312-316, body not in the repository) — true iff the stack has no
elements or the topmost element's generation id is the wide-open sentinel. -/
def SkClipStack.isWideOpen (s : SkClipStack) : Bool :=
  match s.fDeque.getLast? with
  | none => true
  | some top => decide (top.fGenID = kWideOpenGenID)

/-- Modelled from the spec: `SkClipStack::getTopmostGenID` (declared
SkClipStack.h line 341, body not in the repository) — the wide-open sentinel
when the stack holds no elements, else the topmost element's generation id. -/
def SkClipStack.getTopmostGenID (s : SkClipStack) : Int :=
  match s.fDeque.getLast? with
  | none => kWideOpenGenID
  | some top => top.fGenID

/-- Modelled from the spec: `SkClipStack::getConservativeBounds` (declared
SkClipStack.h lines 425-430, body not in the repository) — an inside-out bound
is replaced by the full `[0,maxWidth) x [0,maxHeight)` rectangle; a normal
bound is translated by the offset and intersected with that rectangle (empty
when they do not intersect). The rect-intersection flag is passed through. -/
def SkClipStack.getConservativeBounds (s : SkClipStack)
    (offsetX offsetY maxWidth maxHeight : Int) : SkRect × Bool :=
  if s.getBounds.2.1 = kInsideOut_BoundsType then
    (⟨0, 0, maxWidth, maxHeight⟩, s.getBounds.2.2)
  else
    match ((s.getBounds.1).offset offsetX offsetY).intersect ⟨0, 0, maxWidth, maxHeight⟩ with
    | some r => (r, s.getBounds.2.2)
    | none => (SkRect.empty, s.getBounds.2.2)

/-- `Element::FillCombo` (SkClipStack.h lines 245-250): the four combinations
of the previous and current fill senses. -/
inductive FillCombo where
  | kPrev_Cur_FillCombo
  | kPrev_InvCur_FillCombo
  | kInvPrev_Cur_FillCombo
  | kInvPrev_InvCur_FillCombo
deriving DecidableEq, Repr

open FillCombo

/-- Modelled from the spec (§4.1 Intersect rule; `Element::combineBoundsIntersection`
is declared at SkClipStack.h line 255 with its body outside the repository):
two normal operands intersect their rects; a normal operand against an
inside-out one keeps the finite rect; two inside-out operands join their
holes. -/
def combineBoundsIntersection (combo : FillCombo) (prevFinite curFinite : SkRect) :
    BoundsType × SkRect :=
  match combo with
  | kPrev_Cur_FillCombo =>
      (kNormal_BoundsType,
       if prevFinite.intersects curFinite then prevFinite.isect curFinite else SkRect.empty)
  | kPrev_InvCur_FillCombo => (kNormal_BoundsType, prevFinite)
  | kInvPrev_Cur_FillCombo => (kNormal_BoundsType, curFinite)
  | kInvPrev_InvCur_FillCombo => (kInsideOut_BoundsType, prevFinite.join curFinite)

/-- Modelled from the spec (§4.1 Union rule; `Element::combineBoundsUnion` is
declared at SkClipStack.h line 254 with its body outside the repository): the
dual of the Intersect rule — two normal operands join their rects; any
inside-out operand keeps the result inside-out with the holes intersected. -/
def combineBoundsUnion (combo : FillCombo) (prevFinite curFinite : SkRect) :
    BoundsType × SkRect :=
  match combo with
  | kPrev_Cur_FillCombo => (kNormal_BoundsType, prevFinite.join curFinite)
  | kPrev_InvCur_FillCombo => (kInsideOut_BoundsType, curFinite)
  | kInvPrev_Cur_FillCombo => (kInsideOut_BoundsType, prevFinite)
  | kInvPrev_InvCur_FillCombo =>
      (kInsideOut_BoundsType,
       if prevFinite.intersects curFinite then prevFinite.isect curFinite else SkRect.empty)

/-- Modelled from the spec (§4.1 Difference rule; `Element::combineBoundsDiff`
is declared at SkClipStack.h line 252 with its body outside the repository):
flip the current operand's fill sense and apply the Intersect rule. -/
def combineBoundsDiff (combo : FillCombo) (prevFinite curFinite : SkRect) :
    BoundsType × SkRect :=
  match combo with
  | kPrev_Cur_FillCombo => combineBoundsIntersection kPrev_InvCur_FillCombo prevFinite curFinite
  | kPrev_InvCur_FillCombo => combineBoundsIntersection kPrev_Cur_FillCombo prevFinite curFinite
  | kInvPrev_Cur_FillCombo =>
      combineBoundsIntersection kInvPrev_InvCur_FillCombo prevFinite curFinite
  | kInvPrev_InvCur_FillCombo =>
      combineBoundsIntersection kInvPrev_Cur_FillCombo prevFinite curFinite

/-- Modelled from the spec (§4.1 ReverseDifference rule; `Element::combineBoundsRevDiff`
is declared at SkClipStack.h line 256 with its body outside the repository):
Difference with the operands swapped, i.e. flip the previous operand's fill
sense and apply the Intersect rule. -/
def combineBoundsRevDiff (combo : FillCombo) (prevFinite curFinite : SkRect) :
    BoundsType × SkRect :=
  match combo with
  | kPrev_Cur_FillCombo => combineBoundsIntersection kInvPrev_Cur_FillCombo prevFinite curFinite
  | kPrev_InvCur_FillCombo =>
      combineBoundsIntersection kInvPrev_InvCur_FillCombo prevFinite curFinite
  | kInvPrev_Cur_FillCombo => combineBoundsIntersection kPrev_Cur_FillCombo prevFinite curFinite
  | kInvPrev_InvCur_FillCombo =>
      combineBoundsIntersection kPrev_InvCur_FillCombo prevFinite curFinite

/-- Modelled from the spec (§4.1 XOR rule; `Element::combineBoundsXOR` is
declared at SkClipStack.h line 253 with its body outside the repository):
bound by the join of the operands' rects while either side is finite; two
inside-out operands degrade to the no-claim inside-out empty bound. -/
def combineBoundsXOR (combo : FillCombo) (prevFinite curFinite : SkRect) :
    BoundsType × SkRect :=
  match combo with
  | kPrev_Cur_FillCombo => (kNormal_BoundsType, prevFinite.join curFinite)
  | kPrev_InvCur_FillCombo => (kInsideOut_BoundsType, prevFinite.join curFinite)
  | kInvPrev_Cur_FillCombo => (kInsideOut_BoundsType, prevFinite.join curFinite)
  | kInvPrev_InvCur_FillCombo => (kInsideOut_BoundsType, SkRect.empty)

/-- Modelled from the spec (§4.1; `Element::updateBoundAndGenID` is declared at
SkClipStack.h line 243 with its body outside the repository): compute the
element's own bound and fill sense, combine with the effective prior element's
stored bound (wide open — inside-out empty, rect-intersection — when there is
none) under the element's operator, propagate the rect-intersection flag, and
assign the generation id (the reserved empty id for an empty element, the
reserved wide-open id when the combined bound is provably wide open, else the
next id from the monotonic counter, which is threaded explicitly and starts
above the reserved values). -/
def Element.updateBoundAndGenID (e : Element) (prior : Option Element) (counter : Int) :
    Element × Int :=
  let own : BoundsType × SkRect :=
    match e.fType with
    | kRect_Type => (kNormal_BoundsType, e.fRect)
    | kPath_Type =>
        (if e.fPath.isInverseFillType then kInsideOut_BoundsType else kNormal_BoundsType,
         e.fPath.getBounds)
    | kEmpty_Type => (kNormal_BoundsType, SkRect.empty)
  let prevType : BoundsType :=
    match prior with
    | none => kInsideOut_BoundsType
    | some p => p.fFiniteBoundType
  let prevFinite : SkRect :=
    match prior with
    | none => SkRect.empty
    | some p => p.fFiniteBound
  let priorIsRect : Bool :=
    match prior with
    | none => true
    | some p => p.fIsIntersectionOfRects
  let combo : FillCombo :=
    if prevType = kInsideOut_BoundsType then
      if own.1 = kInsideOut_BoundsType then kInvPrev_InvCur_FillCombo
      else kInvPrev_Cur_FillCombo
    else
      if own.1 = kInsideOut_BoundsType then kPrev_InvCur_FillCombo
      else kPrev_Cur_FillCombo
  let combined : BoundsType × SkRect :=
    match e.fOp with
    | kReplace_Op => own
    | kIntersect_Op => combineBoundsIntersection combo prevFinite own.2
    | kUnion_Op => combineBoundsUnion combo prevFinite own.2
    | kDifference_Op => combineBoundsDiff combo prevFinite own.2
    | kReverseDifference_Op => combineBoundsRevDiff combo prevFinite own.2
    | kXOR_Op => combineBoundsXOR combo prevFinite own.2
  let isRectOnly : Bool :=
    priorIsRect && decide (e.fType = kRect_Type) && decide (e.fOp = kIntersect_Op)
  if e.fType = kEmpty_Type then
    ({ e with fFiniteBoundType := combined.1, fFiniteBound := combined.2,
              fIsIntersectionOfRects := isRectOnly, fGenID := kEmptyGenID }, counter)
  else if combined.1 = kInsideOut_BoundsType ∧ combined.2.isEmpty then
    ({ e with fFiniteBoundType := combined.1, fFiniteBound := combined.2,
              fIsIntersectionOfRects := isRectOnly, fGenID := kWideOpenGenID }, counter)
  else
    ({ e with fFiniteBoundType := combined.1, fFiniteBound := combined.2,
              fIsIntersectionOfRects := isRectOnly, fGenID := counter }, counter + 1)

/-- Modelled from the spec (§4.3; `SkClipStack::clipDevRect(const SkRect&,
SkRegion::Op, bool doAA)` is declared at SkClipStack.h line 307 with its body
outside the repository): append a rect element at the current save level after
updating its bound and generation id against the topmost element, unless the
topmost element is a rect-intersection at the same save level, the new
operator is also intersect and the anti-alias flags agree, in which case the
top element's rect is intersected in place and its bound and generation id
recomputed against the element below it (its superseded generation id is
reported to the purge registry). Returns the new stack, the purged generation
ids, and the updated generation-id counter. -/
def SkClipStack.clipDevRect (s : SkClipStack) (counter : Int) (rect : SkRect)
    (op : SkRegionOp) (doAA : Bool) : SkClipStack × List Int × Int :=
  match s.fDeque.getLast? with
  | some top =>
      if top.fSaveCount = s.fSaveCount ∧ top.fType = kRect_Type ∧
          top.fOp = kIntersect_Op ∧ op = kIntersect_Op ∧ top.fDoAA = doAA then
        let prior := s.fDeque.dropLast.getLast?
        let merged0 :=
          { top with
            fRect := if top.fRect.intersects rect then top.fRect.isect rect else SkRect.empty }
        let step := merged0.updateBoundAndGenID prior counter
        (⟨s.fDeque.dropLast ++ [step.1], s.fSaveCount⟩, [top.fGenID], step.2)
      else
        let step := (Element.mkRect s.fSaveCount rect op doAA).updateBoundAndGenID (some top) counter
        (⟨s.fDeque ++ [step.1], s.fSaveCount⟩, [], step.2)
  | none =>
      let step := (Element.mkRect s.fSaveCount rect op doAA).updateBoundAndGenID none counter
      (⟨s.fDeque ++ [step.1], s.fSaveCount⟩, [], step.2)

/-- `SkClipStack::clipDevRect(const SkIRect& ir, SkRegion::Op op)` (SkClipStack.h
lines 302-306): build a scalar rect from the integer rect with `r.set(ir)` and
delegate to the scalar overload with `doAA = false`. -/
def SkClipStack.clipDevRectI (s : SkClipStack) (counter : Int) (ir : SkIRect)
    (op : SkRegionOp) : SkClipStack × List Int × Int :=
  s.clipDevRect counter (SkRect.setFrom ir) op false

/-- The integer-rect clip as claim C10 words it, stated independently of the
source's overload: convert the integer rect to a scalar rect coordinate by
coordinate and call the scalar `clipDevRect` with the anti-alias flag fixed to
false. -/
def clipDevRectViaScalar (s : SkClipStack) (counter : Int) (ir : SkIRect)
    (op : SkRegionOp) : SkClipStack × List Int × Int :=
  SkClipStack.clipDevRect s counter ⟨ir.fLeft, ir.fTop, ir.fRight, ir.fBottom⟩ op false

/-- C8: the three reserved generation-id sentinel values are exactly 0 for
invalid, 1 for empty (no pixels writeable), and 2 for wide open (all pixels
writeable). -/
theorem reserved_genID_values :
    kInvalidGenID = 0 ∧ kEmptyGenID = 1 ∧ kWideOpenGenID = 2 := by
  refine ⟨rfl, rfl, rfl⟩

/-- C4: a default-constructed SkClipStack (no seed rectangle) is wide open and
its topmost generation id is the wide-open sentinel. -/
theorem default_stack_wideOpen :
    SkClipStack.initial.isWideOpen = true ∧
    SkClipStack.initial.getTopmostGenID = kWideOpenGenID := by
  refine ⟨rfl, rfl⟩

/-- C6: every Empty-kind element the header's code produces — the
default-constructed element, the private save-count constructor, and any
element passed through `setEmpty` — carries the reserved empty generation id;
the rect and path constructors never produce an Empty-kind element, and
`setOp` changes neither the kind nor the generation id. -/
theorem empty_element_genID :
    (Element.mkDefault.fType = kEmpty_Type ∧ Element.mkDefault.fGenID = kEmptyGenID) ∧
    (∀ sc : Int, (Element.mkSave sc).fType = kEmpty_Type ∧
      (Element.mkSave sc).fGenID = kEmptyGenID) ∧
    (∀ e : Element, (e.setEmpty).fType = kEmpty_Type ∧ (e.setEmpty).fGenID = kEmptyGenID) ∧
    (∀ (sc : Int) (r : SkRect) (op : SkRegionOp) (aa : Bool),
      (Element.mkRect sc r op aa).fType = kRect_Type) ∧
    (∀ (sc : Int) (p : SkPath) (op : SkRegionOp) (aa : Bool),
      (Element.mkPath sc p op aa).fType = kPath_Type) ∧
    (∀ (e : Element) (op : SkRegionOp),
      (e.setOp op).fType = e.fType ∧ (e.setOp op).fGenID = e.fGenID) := by
  refine ⟨⟨rfl, rfl⟩, fun sc => ⟨rfl, rfl⟩, fun e => ⟨rfl, rfl⟩,
    fun sc r op aa => rfl, fun sc p op aa => rfl, fun e op => ⟨rfl, rfl⟩⟩

/-- C7: `Element::getBounds` returns the stored rect for a Rect-kind element,
the path's bounds for a Path-kind element, and the zero rect for an Empty-kind
element, and changing only the shape's inverse-fill sense never changes the
result. -/
theorem element_getBounds_cases (e : Element) :
    (e.fType = kRect_Type → e.getBounds = e.fRect) ∧
    (e.fType = kPath_Type → e.getBounds = e.fPath.getBounds) ∧
    (e.fType = kEmpty_Type → e.getBounds = SkRect.empty) ∧
    (∀ b : Bool, (e.withFill b).getBounds = e.getBounds) := by
  refine ⟨fun h => ?_, fun h => ?_, fun h => ?_, fun b => ?_⟩ <;>
    simp only [Element.getBounds, Element.withFill, SkPath.withFill, SkPath.getBounds] <;>
    rw [h]

/-- C9: `Element::contains` returns false for an Empty-kind element, exact
rectangle containment for a Rect-kind element, and changing only the shape's
inverse-fill sense never changes the result. -/
theorem element_contains_cases (e : Element) (r : SkRect) :
    (e.fType = kEmpty_Type → e.contains r = false) ∧
    (e.fType = kRect_Type → e.contains r = e.fRect.contains r) ∧
    (∀ b : Bool, (e.withFill b).contains r = e.contains r) := by
  refine ⟨fun h => ?_, fun h => ?_, fun b => ?_⟩ <;>
    simp only [Element.contains, Element.withFill, SkPath.withFill,
      SkPath.conservativelyContainsRect] <;>
    rw [h]

/-- C10: the integer-rect overload of `clipDevRect` produces exactly the same
stack state (and purge reports and counter) as converting the integer rect to
a scalar rect and calling the scalar overload with the anti-alias flag fixed
to false. -/
theorem clipDevRect_int_overload_equiv (s : SkClipStack) (counter : Int)
    (ir : SkIRect) (op : SkRegionOp) :
    s.clipDevRectI counter ir op = clipDevRectViaScalar s counter ir op := by
  cases ir
  rfl

/-- C1 counterexample: two Empty-kind elements that differ only in their
operator compare unequal under `Element::operator==`, so Empty elements are
not equal "regardless of their other fields". -/
theorem empty_elements_op_mismatch :
    Element.mkDefault.fType = kEmpty_Type ∧
    (Element.mkDefault.setOp kIntersect_Op).fType = kEmpty_Type ∧
    Element.beq Element.mkDefault (Element.mkDefault.setOp kIntersect_Op) = false := by
  refine ⟨rfl, rfl, by decide⟩

/-- C1 as amended: `a == b` holds iff the operator, kind, anti-alias flag and
save level all match and, when the kind is Rect or Path, the shape payload of
that kind also matches; two Empty-kind elements with matching operator,
anti-alias flag and save level are equal with no payload compared. -/
theorem element_beq_iff (a b : Element) :
    Element.beq a b = true ↔
      (a.fOp = b.fOp ∧ a.fType = b.fType ∧ a.fDoAA = b.fDoAA ∧
       a.fSaveCount = b.fSaveCount ∧
       (a.fType = kRect_Type → a.fRect = b.fRect) ∧
       (a.fType = kPath_Type → a.fPath = b.fPath)) := by
  unfold Element.beq
  split_ifs with h
  · obtain ⟨h1, h2, h3, h4⟩ := h
    constructor
    · intro hb
      refine ⟨h1, h2, h3, h4, fun hr => ?_, fun hp => ?_⟩
      · rw [hr] at hb
        exact of_decide_eq_true hb
      · rw [hp] at hb
        exact of_decide_eq_true hb
    · intro hc
      obtain ⟨_, _, _, _, hR, hP⟩ := hc
      cases ht : a.fType
      · rfl
      · exact decide_eq_true (hR ht)
      · exact decide_eq_true (hP ht)
  · constructor
    · intro hfalse
      exact absurd hfalse (by simp)
    · intro hc
      obtain ⟨h1, h2, h3, h4, _, _⟩ := hc
      exact absurd ⟨h1, h2, h3, h4⟩ h

/-- Rect containment is transitive. -/
theorem SkRect.contains_trans {a b c : SkRect} (hab : a.contains b = true)
    (hbc : b.contains c = true) : a.contains c = true := by
  simp only [SkRect.contains, SkRect.isEmpty, Bool.and_eq_true, Bool.not_eq_true',
    Bool.or_eq_false_iff, decide_eq_false_iff_not, decide_eq_true_eq] at hab hbc ⊢
  omega

/-- C2: when `quickContains` certifies a rect R, clipping any rect contained in
R through `intersectRectWithClip` succeeds and leaves it unchanged. -/
theorem quickContains_sound (s : SkClipStack) (R Rp : SkRect)
    (hq : s.quickContains R = true) (hsub : R.contains Rp = true) :
    s.intersectRectWithClip Rp = (true, Rp) := by
  unfold SkClipStack.quickContains at hq
  simp only [Bool.and_eq_true, decide_eq_true_eq] at hq
  obtain ⟨⟨hN, _⟩, hcont⟩ := hq
  have hc2 : (s.getBounds.1).contains Rp = true := SkRect.contains_trans hcont hsub
  unfold SkClipStack.intersectRectWithClip
  rw [hN, if_neg (by decide), if_pos hc2]

/-- A concrete one-element stack whose accumulated clip is the rect
(0,0,10,10), built by the model's own clip operation. -/
def rectClipSample : SkClipStack :=
  (SkClipStack.initial.clipDevRect 3 ⟨0, 0, 10, 10⟩ kIntersect_Op false).1

theorem quickContains_sound_witness :
    rectClipSample.intersectRectWithClip ⟨2, 2, 8, 8⟩ = (true, ⟨2, 2, 8, 8⟩) :=
  quickContains_sound rectClipSample ⟨1, 1, 9, 9⟩ ⟨2, 2, 8, 8⟩ (by decide) (by decide)

/-- On a list whose save levels do not increase (top of the stack first),
popping while the level exceeds `c` pops exactly the elements with level above
`c`, and what is left is exactly the elements with level at most `c`. -/
theorem takeWhile_dropWhile_level_desc (c : Int) :
    ∀ r : List Element, List.Sorted (fun a b => b.fSaveCount ≤ a.fSaveCount) r →
      r.takeWhile (fun e => decide (c < e.fSaveCount)) =
        r.filter (fun e => decide (c < e.fSaveCount)) ∧
      r.dropWhile (fun e => decide (c < e.fSaveCount)) =
        r.filter (fun e => decide (e.fSaveCount ≤ c))
  | [], _ => by simp
  | a :: t, h => by
    rw [List.sorted_cons] at h
    obtain ⟨ha, ht⟩ := h
    obtain ⟨iht, ihd⟩ := takeWhile_dropWhile_level_desc c t ht
    by_cases hc : c < a.fSaveCount
    · have hle : ¬ a.fSaveCount ≤ c := by omega
      simp only [List.takeWhile_cons, List.dropWhile_cons, List.filter_cons,
        decide_eq_true_eq, hc, hle, if_true, if_false, iht, ihd, ite_true, ite_false, and_self]
    · have hle : a.fSaveCount ≤ c := by omega
      have hnone : t.filter (fun e => decide (c < e.fSaveCount)) = [] :=
        List.filter_eq_nil_iff.mpr fun e he => by
          simp only [decide_eq_true_eq, not_lt]
          exact le_trans (ha e he) hle
      have hall : t.filter (fun e => decide (e.fSaveCount ≤ c)) = t :=
        List.filter_eq_self.mpr fun e he => by
          simp only [decide_eq_true_eq]
          exact le_trans (ha e he) hle
      simp only [List.takeWhile_cons, List.dropWhile_cons, List.filter_cons,
        decide_eq_true_eq, hc, hle, if_true, if_false, hnone, hall, ite_true, ite_false, and_self]

/-- C3: with a positive save count and save levels non-decreasing from bottom
to top, `restore` decrements the save count, keeps exactly the elements whose
save level is at most the new count — each kept element unchanged, its stored
incremental bound included — and reports to the purge registry exactly the
removed elements' generation ids, topmost first. -/
theorem restore_removes_high_suffix (s : SkClipStack)
    (_hpos : 0 < s.fSaveCount)
    (hmono : List.Sorted (fun a b => a.fSaveCount ≤ b.fSaveCount) s.fDeque) :
    (s.restore).1.fSaveCount = s.fSaveCount - 1 ∧
    (s.restore).1.fDeque =
      s.fDeque.filter (fun e => decide (e.fSaveCount ≤ s.fSaveCount - 1)) ∧
    (s.restore).2 =
      ((s.fDeque.filter (fun e => decide (s.fSaveCount - 1 < e.fSaveCount))).map
        Element.fGenID).reverse ∧
    ∀ e ∈ (s.restore).1.fDeque, e ∈ s.fDeque := by
  have hrev : List.Sorted (fun a b => b.fSaveCount ≤ a.fSaveCount) s.fDeque.reverse :=
    List.pairwise_reverse.mpr hmono
  obtain ⟨ht, hd⟩ :=
    takeWhile_dropWhile_level_desc (s.fSaveCount - 1) s.fDeque.reverse hrev
  have hkeep : (s.restore).1.fDeque =
      s.fDeque.filter (fun e => decide (e.fSaveCount ≤ s.fSaveCount - 1)) := by
    have hdef : (s.restore).1.fDeque =
        (s.fDeque.reverse.dropWhile fun e =>
          decide (s.fSaveCount - 1 < e.fSaveCount)).reverse := rfl
    rw [hdef, hd, List.filter_reverse, List.reverse_reverse]
  have hpop : (s.restore).2 =
      ((s.fDeque.filter (fun e => decide (s.fSaveCount - 1 < e.fSaveCount))).map
        Element.fGenID).reverse := by
    have hdef : (s.restore).2 =
        (s.fDeque.reverse.takeWhile fun e =>
          decide (s.fSaveCount - 1 < e.fSaveCount)).map Element.fGenID := rfl
    rw [hdef, ht, List.filter_reverse, List.map_reverse]
  refine ⟨rfl, hkeep, hpop, fun e he => ?_⟩
  rw [hkeep] at he
  exact (List.mem_filter.mp he).1

/-- A two-level stack (one element at save level 0, one at save level 1) used
to instantiate the restore theorem. -/
def restoreSample : SkClipStack := ⟨[Element.mkSave 0, Element.mkSave 1], 1⟩

theorem restore_removes_high_suffix_witness :
    (restoreSample.restore).1.fSaveCount = restoreSample.fSaveCount - 1 ∧
    (restoreSample.restore).1.fDeque =
      restoreSample.fDeque.filter
        (fun e => decide (e.fSaveCount ≤ restoreSample.fSaveCount - 1)) ∧
    (restoreSample.restore).2 =
      ((restoreSample.fDeque.filter
        (fun e => decide (restoreSample.fSaveCount - 1 < e.fSaveCount))).map
          Element.fGenID).reverse ∧
    ∀ e ∈ (restoreSample.restore).1.fDeque, e ∈ restoreSample.fDeque :=
  restore_removes_high_suffix restoreSample (by decide) (by decide)

/-- Pixel membership in the clamped intersection of two rects (empty when they
do not intersect): a pixel lies in it iff it lies in both rects. -/
theorem SkRect.memPt_intersect (a b : SkRect) (x y : Int) :
    (match a.intersect b with
      | some r => r
      | none => SkRect.empty).memPt x y ↔ a.memPt x y ∧ b.memPt x y := by
  unfold SkRect.intersect
  by_cases h : a.intersects b = true
  · rw [if_pos h]
    simp only [SkRect.memPt, SkRect.isect]
    omega
  · rw [if_neg h]
    have key : a.memPt x y → b.memPt x y → a.intersects b = true := by
      intro hma hmb
      simp only [SkRect.memPt] at hma hmb
      simp only [SkRect.intersects, SkRect.isEmpty, Bool.and_eq_true, Bool.not_eq_true',
        Bool.or_eq_false_iff, decide_eq_false_iff_not, decide_eq_true_eq]
      omega
    constructor
    · intro hm
      simp only [SkRect.memPt, SkRect.empty] at hm
      omega
    · intro hm
      exact absurd (key hm.1 hm.2) h

/-- C5: `getConservativeBounds` returns the full `[0,maxWidth) x [0,maxHeight)`
rectangle when the raw bound type from `getBounds` is inside-out; otherwise it
returns — pixel for pixel — the normal bound translated by the offset and
intersected with that rectangle. The rect-intersection flag is the one
`getBounds` reports. -/
theorem getConservativeBounds_characterization (s : SkClipStack)
    (offsetX offsetY maxWidth maxHeight : Int) :
    (s.getBounds.2.1 = kInsideOut_BoundsType →
      (s.getConservativeBounds offsetX offsetY maxWidth maxHeight).1 =
        ⟨0, 0, maxWidth, maxHeight⟩) ∧
    (s.getBounds.2.1 = kNormal_BoundsType →
      ∀ x y : Int,
        ((s.getConservativeBounds offsetX offsetY maxWidth maxHeight).1).memPt x y ↔
          ((s.getBounds.1).offset offsetX offsetY).memPt x y ∧
            (SkRect.mk 0 0 maxWidth maxHeight).memPt x y) ∧
    (s.getConservativeBounds offsetX offsetY maxWidth maxHeight).2 =
      s.getBounds.2.2 := by
  unfold SkClipStack.getConservativeBounds
  by_cases hb : s.getBounds.2.1 = kInsideOut_BoundsType
  · rw [if_pos hb]
    refine ⟨fun _ => rfl, fun hn => ?_, rfl⟩
    rw [hn] at hb
    exact absurd hb (by decide)
  · rw [if_neg hb]
    refine ⟨fun hio => absurd hio hb, fun _ x y => ?_, ?_⟩
    · have hmem := SkRect.memPt_intersect ((s.getBounds.1).offset offsetX offsetY)
        ⟨0, 0, maxWidth, maxHeight⟩ x y
      cases hI : ((s.getBounds.1).offset offsetX offsetY).intersect
          ⟨0, 0, maxWidth, maxHeight⟩ with
      | none =>
          rw [hI] at hmem
          simpa using hmem
      | some r =>
          rw [hI] at hmem
          simpa using hmem
    · cases hI : ((s.getBounds.1).offset offsetX offsetY).intersect
          ⟨0, 0, maxWidth, maxHeight⟩ <;> rfl
